import Mathlib

/-!
Shallow embedding of the pyvvcore repository (src/pyvvcore/core.py and
src/pyvvcore/ttslib.py), a ctypes binding over the VOICEVOX native
speech-synthesis library, together with theorems settling the frozen
claims about it.

Modelling conventions:
* Native byte strings are `List Nat` with each cell a `c_uint8` value
  (reads are taken mod 256, mirroring 8-bit cells).
* The ctypes declaration block of `VVCore.__init__` is embedded as an
  explicit sequence of argtypes/restype assignment statements folded
  over a table whose default restype is `c_int` (the ctypes default
  for a function whose restype is never assigned).
* The Python environment (pathlib resolution, UTF-8 codecs, CDLL
  loading, the faulthandler flag) is a record of capabilities `Env`;
  the facade's methods are pure functions of `Env` and the loaded
  native library, returning an `Except` result paired with the trace
  of external events (library loads, native calls, buffer reads,
  buffer frees) in program order.
-/

namespace PyVVCore

/-- ctypes type expressions used in core.py's declaration block. -/
inductive CType where
  | c_bool
  | c_char_p
  | c_int
  | c_int64
  | c_float
  | c_uint8
  | c_void
  | ptr (t : CType)
  deriving DecidableEq

/-- State of one native function's ctypes declaration: its argtypes
(`none` until assigned, the ctypes default) and its restype. -/
structure FuncDecl where
  argtypes : Option (List CType)
  restype : CType
  deriving DecidableEq

/-- Before any assignment, ctypes gives a foreign function no argtypes
and a default restype of `c_int`. -/
def defaultFuncDecl : FuncDecl := { argtypes := none, restype := CType.c_int }

/-- One assignment statement of core.py's `VVCore.__init__`:
`self.core.<fn>.argtypes = [...]` or `self.core.<fn>.restype = t`. -/
inductive DeclStmt where
  | setArgtypes (fn : String) (ts : List CType)
  | setRestype (fn : String) (t : CType)
  deriving DecidableEq

/-- Execute one declaration assignment on the function table. -/
def applyStmt (tbl : String → FuncDecl) : DeclStmt → (String → FuncDecl)
  | DeclStmt.setArgtypes fn ts =>
      fun m => if m = fn then { tbl m with argtypes := some ts } else tbl m
  | DeclStmt.setRestype fn t =>
      fun m => if m = fn then { tbl m with restype := t } else tbl m

/-- The assignment statements of `VVCore.__init__` (core.py lines
30-79) in source order.  Note: the source sets `decode_forward.argtypes`
but never sets `decode_forward.restype`. -/
def vvcoreInitStmts : List DeclStmt :=
  [ DeclStmt.setArgtypes ("initialize") [CType.c_char_p, CType.c_bool, CType.c_int],
    DeclStmt.setRestype ("initialize") CType.c_bool,
    DeclStmt.setArgtypes ("finalize") [],
    DeclStmt.setRestype ("finalize") CType.c_void,
    DeclStmt.setArgtypes ("metas") [],
    DeclStmt.setRestype ("metas") CType.c_char_p,
    DeclStmt.setArgtypes ("supported_devices") [],
    DeclStmt.setRestype ("supported_devices") CType.c_char_p,
    DeclStmt.setArgtypes ("yukarin_s_forward")
      [CType.c_int64, CType.ptr CType.c_int64, CType.ptr CType.c_int64,
       CType.ptr CType.c_float],
    DeclStmt.setRestype ("yukarin_s_forward") CType.c_bool,
    DeclStmt.setArgtypes ("yukarin_sa_forward")
      [CType.c_int64, CType.ptr CType.c_int64, CType.ptr CType.c_int64,
       CType.ptr CType.c_int64, CType.ptr CType.c_int64,
       CType.ptr CType.c_int64, CType.ptr CType.c_int64,
       CType.ptr CType.c_int64, CType.ptr CType.c_float],
    DeclStmt.setRestype ("yukarin_sa_forward") CType.c_bool,
    DeclStmt.setArgtypes ("decode_forward")
      [CType.c_int64, CType.c_int64, CType.ptr CType.c_float,
       CType.ptr CType.c_float, CType.ptr CType.c_int64,
       CType.ptr CType.c_float],
    DeclStmt.setArgtypes ("last_error_message") [],
    DeclStmt.setRestype ("last_error_message") CType.c_char_p,
    DeclStmt.setArgtypes ("voicevox_initialize_openjtalk") [CType.c_char_p],
    DeclStmt.setRestype ("voicevox_initialize_openjtalk") CType.c_int,
    DeclStmt.setArgtypes ("voicevox_tts")
      [CType.c_char_p, CType.c_int64, CType.ptr CType.c_int,
       CType.ptr (CType.ptr CType.c_uint8)],
    DeclStmt.setRestype ("voicevox_tts") CType.c_int,
    DeclStmt.setArgtypes ("voicevox_wav_free") [CType.ptr CType.c_uint8],
    DeclStmt.setRestype ("voicevox_wav_free") CType.c_void,
    DeclStmt.setArgtypes ("voicevox_error_result_to_message") [CType.c_int],
    DeclStmt.setRestype ("voicevox_error_result_to_message") CType.c_char_p ]

/-- The declaration table after `VVCore.__init__` finishes. -/
def VVCore.declTable : String → FuncDecl :=
  vvcoreInitStmts.foldl applyStmt (fun _ => defaultFuncDecl)

/-- Result of one native `voicevox_tts` call: the returned result code,
the value left in the `c_int` pointed to by `output_binary_size` (the
cell starts at 0, the native side may overwrite it), and the buffer the
native side stored into `output_wav.contents` (`none` when the native
side left the pre-allocated placeholder pointer untouched). -/
structure TtsResult where
  code : Int
  size : Int
  wav : Option (List Nat)
  deriving DecidableEq

/-- Behaviour of the loaded native library, as visible through the
symbols core.py declares and ttslib.py calls.  Byte strings are
`List Nat`. -/
structure NativeLib where
  initialize' : List Nat → Bool → Int → Bool
  last_error_message : List Nat
  voicevox_initialize_openjtalk : List Nat → Int
  voicevox_tts : List Nat → Int → TtsResult
  voicevox_error_result_to_message : Int → List Nat
  metas : List Nat
  supported_devices : List Nat

/-- The pointer held by `output_wav.contents` after a `voicevox_tts`
call: either the placeholder `pointer(c_uint8())` created by
`VVTTSLib.tts` (a fresh single zero byte) or a native-allocated
buffer. -/
inductive WavPtr where
  | placeholder
  | native (buf : List Nat)
  deriving DecidableEq

/-- The bytes reachable through a wav pointer; the placeholder points
at one zero-initialised `c_uint8`. -/
def WavPtr.deref : WavPtr → List Nat
  | WavPtr.placeholder => [0]
  | WavPtr.native buf => buf

/-- The pointer value after the native call wrote (or did not write)
`output_wav.contents`. -/
def wavPtrOf : Option (List Nat) → WavPtr
  | none => WavPtr.placeholder
  | some buf => WavPtr.native buf

/-- `output_wav.contents[i]`: ctypes reads the i-th `c_uint8` cell, an
8-bit value (hence mod 256); out-of-range reads are modelled as 0. -/
def readByte (p : WavPtr) (i : Nat) : Nat :=
  (p.deref.getD i 0) % 256

/-- External events of a facade call, in program order. -/
inductive Event where
  | loadLib (path : String)
  | enableFaulthandler
  | callInit (rootDir : List Nat) (useGpu : Bool) (threads : Int)
  | callLastError
  | callOpenjtalk (dict : List Nat)
  | callTts (text : List Nat) (speakerId : Int)
  | callErrMsg (code : Int)
  | callMetas
  | callSupportedDevices
  | readBuf (i : Nat)
  | wavFree (p : WavPtr)
  deriving DecidableEq

/-- Events that call into the loaded native library (loading a library,
toggling the faulthandler and reading buffer memory are not calls). -/
def Event.isNativeCall : Event → Bool
  | Event.loadLib _ => false
  | Event.enableFaulthandler => false
  | Event.readBuf _ => false
  | _ => true

/-- Is this event a `voicevox_wav_free` invocation? -/
def Event.isWavFree : Event → Bool
  | Event.wavFree _ => true
  | _ => false

/-- Exceptions the facade can raise. -/
inductive PyError where
  | runtimeError (msg : String)
  | fileNotFoundError (path : String)
  deriving DecidableEq

/-- Is the call outcome a raised exception? -/
def pyIsError {α : Type} : Except PyError α → Bool
  | Except.error _ => true
  | Except.ok _ => false

/-- Did the call raise `FileNotFoundError` (a strict path check)? -/
def pyIsFileNotFound {α : Type} : Except PyError α → Bool
  | Except.error (PyError.fileNotFoundError _) => true
  | _ => false

/-- The Python environment the facade runs in: pathlib operations
(`expanduser`, strict `resolve`, `.parent`), the UTF-8 codecs, CDLL
loading, and whether the faulthandler is already enabled. -/
structure Env where
  expanduser : String → String
  resolve : String → Option String
  parent : String → String
  utf8Encode : String → List Nat
  utf8Decode : List Nat → String
  loadLib : String → NativeLib
  faulthandlerEnabled : Bool

/-- The facade object produced by a successful construction: it holds
the loaded core (`self.core`). -/
structure TTSLibState where
  core : NativeLib

/-- Python `hex(n)[2:]` for a non-negative `n`: lowercase hexadecimal
digits with no leading zeros, `0` for zero. -/
def pyHex (n : Nat) : String :=
  String.mk (Nat.toDigits 16 n)

/-- Python `str.zfill(2)`: pad on the left with zeros to width 2 (the
strings fed to it here never carry a sign). -/
def zfill2 (s : String) : String :=
  if s.length < 2 then String.mk (List.replicate (2 - s.length) '0') ++ s else s

/-- Value of one hexadecimal digit character. -/
def hexDigitVal (c : Char) : Option Nat :=
  if '0' ≤ c ∧ c ≤ '9' then some (c.toNat - 48)
  else if 'a' ≤ c ∧ c ≤ 'f' then some (c.toNat - 87)
  else if 'A' ≤ c ∧ c ≤ 'F' then some (c.toNat - 55)
  else none

/-- Parse a list of hex digit characters pairwise into byte values;
fails on an odd count or a non-digit, as `bytes.fromhex` does. -/
def bytesFromHexChars : List Char → Option (List Nat)
  | [] => some []
  | [_] => none
  | c1 :: c2 :: rest =>
    match hexDigitVal c1, hexDigitVal c2, bytesFromHexChars rest with
    | some h, some l, some bs => some ((16 * h + l) :: bs)
    | _, _, _ => none

/-- Python `bytes.fromhex`; separating spaces (never present in the
strings this program builds) are skipped. -/
def bytesFromHex (s : String) : Option (List Nat) :=
  bytesFromHexChars (s.data.filter (fun c => c ≠ ' '))

/-- One iteration of the tts copy loop:
`bytes.fromhex(hex(b)[2:].zfill(2))`.  For `b < 256` the parse always
succeeds (proved below), so the default is unreachable in `tts`. -/
def hexRoundTripByte (b : Nat) : List Nat :=
  (bytesFromHex (zfill2 (pyHex b))).getD []

/-- The tts copy loop: `for i in range(n): ret += fromhex(...)`,
accumulating `_ret_binary_data` byte by byte from the wav buffer. -/
def ttsCopy (p : WavPtr) (n : Nat) : List Nat :=
  (List.range n).foldl (fun acc i => acc ++ hexRoundTripByte (readByte p i)) []

/-- `VVTTSLib.tts` (ttslib.py lines 96-130): call `voicevox_tts`; on a
non-zero code free the buffer and raise the translated message; on
success copy `output_binary_size` bytes out, free the buffer, return
the copy. -/
def VVTTSLib.tts (env : Env) (self : TTSLibState) (text : String)
    (speakerId : Int) : Except PyError (List Nat) × List Event :=
  let textEnc := env.utf8Encode text
  let r := self.core.voicevox_tts textEnc speakerId
  let wavPtr := wavPtrOf r.wav
  if r.code ≠ 0 then
    (Except.error (PyError.runtimeError
        ("音声合成に失敗しました。\n"
          ++ env.utf8Decode (self.core.voicevox_error_result_to_message r.code))),
     [Event.callTts textEnc speakerId, Event.wavFree wavPtr,
      Event.callErrMsg r.code])
  else
    (Except.ok (ttsCopy wavPtr r.size.toNat),
     Event.callTts textEnc speakerId
       :: ((List.range r.size.toNat).map Event.readBuf
            ++ [Event.wavFree wavPtr]))

/-- `VVTTSLib.metas` (ttslib.py lines 132-141):
`json.loads(self.core.metas().decode("utf-8"))`; `jsonLoads` stands for
the Python stdlib JSON parser. -/
def VVTTSLib.metas {JVal : Type} (env : Env) (jsonLoads : String → JVal)
    (self : TTSLibState) : JVal × List Event :=
  (jsonLoads (env.utf8Decode self.core.metas), [Event.callMetas])

/-- `VVTTSLib.supported_devices` (ttslib.py lines 143-152). -/
def VVTTSLib.supported_devices {JVal : Type} (env : Env)
    (jsonLoads : String → JVal) (self : TTSLibState) : JVal × List Event :=
  (jsonLoads (env.utf8Decode self.core.supported_devices),
   [Event.callSupportedDevices])

/-- Tail of `VVTTSLib.__init__` (ttslib.py lines 81-94): the optional
Open JTalk initialisation. `evs` is the event trace accumulated so
far. -/
def initDictStep (env : Env) (core : NativeLib)
    (dictDir : Option String) (evs : List Event) :
    Except PyError TTSLibState × List Event :=
  match dictDir with
  | none => (Except.ok ⟨core⟩, evs)
  | some dd =>
    match env.resolve (env.expanduser dd) with
    | none => (Except.error (PyError.fileNotFoundError (env.expanduser dd)), evs)
    | some _ =>
      let dEnc := env.utf8Encode dd
      let code := core.voicevox_initialize_openjtalk dEnc
      if code ≠ 0 then
        (Except.error (PyError.runtimeError
            ("Open JTalkの初期化に失敗しました。\n"
              ++ env.utf8Decode (core.voicevox_error_result_to_message code))),
         evs ++ [Event.callOpenjtalk dEnc, Event.callErrMsg code])
      else
        (Except.ok ⟨core⟩, evs ++ [Event.callOpenjtalk dEnc])

/-- Middle of `VVTTSLib.__init__` (ttslib.py lines 55-94), entered
after the optional preload: validate the library path and working
directory, optionally enable the faulthandler, load the core and
initialise it. -/
def initFromTtslib (env : Env) (ttslibPath : String) (useGpu : Bool)
    (cpuNumThreads : Int) (dictDir : Option String)
    (initDir : Option String) (enableFh : Bool) (evs : List Event) :
    Except PyError TTSLibState × List Event :=
  match env.resolve (env.expanduser ttslibPath) with
  | none =>
    (Except.error (PyError.fileNotFoundError (env.expanduser ttslibPath)), evs)
  | some _ =>
    let initDirS := initDir.getD (env.parent ttslibPath)
    match env.resolve (env.expanduser initDirS) with
    | none =>
      (Except.error (PyError.fileNotFoundError (env.expanduser initDirS)), evs)
    | some _ =>
      let evs1 := evs ++
        (if enableFh && !env.faulthandlerEnabled
         then [Event.enableFaulthandler] else [])
      let core := env.loadLib ttslibPath
      let rootEnc := env.utf8Encode initDirS
      let evs2 := evs1 ++ [Event.loadLib ttslibPath,
                           Event.callInit rootEnc useGpu cpuNumThreads]
      if core.initialize' rootEnc useGpu cpuNumThreads then
        initDictStep env core dictDir evs2
      else
        (Except.error (PyError.runtimeError
            ("コアの初期化に失敗しました。\n"
              ++ env.utf8Decode core.last_error_message)),
         evs2 ++ [Event.callLastError])

/-- `VVTTSLib.__init__` (ttslib.py lines 15-94).  Paths are the strings
passed by the caller (converting `str`/`Path` is the identity here);
each `expanduser().resolve(strict=True)` is an existence check whose
result the source discards. -/
def VVTTSLib.init (env : Env) (ttslibPath : String) (useGpu : Bool)
    (cpuNumThreads : Int) (dictDir : Option String)
    (initDir : Option String) (ortPath : Option String)
    (enableFh : Bool) : Except PyError TTSLibState × List Event :=
  match ortPath with
  | some op =>
    match env.resolve (env.expanduser op) with
    | none => (Except.error (PyError.fileNotFoundError (env.expanduser op)), [])
    | some _ =>
      initFromTtslib env ttslibPath useGpu cpuNumThreads dictDir initDir
        enableFh [Event.loadLib op]
  | none =>
    initFromTtslib env ttslibPath useGpu cpuNumThreads dictDir initDir
      enableFh []

/-! ### Concrete fixtures used by witnesses -/

/-- ASCII encoding, a concrete instance of `str.encode("utf-8")`. -/
def asciiEncode (s : String) : List Nat :=
  s.data.map Char.toNat

/-- ASCII decoding, a concrete instance of `bytes.decode("utf-8")`. -/
def asciiDecode (bs : List Nat) : String :=
  String.mk (bs.map Char.ofNat)

/-- A stub native library that initialises successfully and echoes a
fixed 4-byte buffer for TTS with code 0. -/
def stubLib : NativeLib where
  initialize' := fun _ _ _ => true
  last_error_message := asciiEncode ("boom")
  voicevox_initialize_openjtalk := fun _ => 0
  voicevox_tts := fun _ _ => ⟨0, 4, some [1, 2, 3, 4]⟩
  voicevox_error_result_to_message := fun _ => asciiEncode ("err")
  metas := asciiEncode ("[]")
  supported_devices := asciiEncode ("[]")

/-- A stub native library whose `initialize` returns false with
`last_error_message` "boom". -/
def stubLibInitFail : NativeLib :=
  { stubLib with initialize' := fun _ _ _ => false }

/-- A stub native library whose `voicevox_tts` fails with code 1 and
leaves the output pointer untouched. -/
def stubLibTtsFail : NativeLib :=
  { stubLib with voicevox_tts := fun _ _ => ⟨1, 0, none⟩ }

/-- A stub native library whose Open JTalk initialisation fails with
code 2. -/
def stubLibOjtFail : NativeLib :=
  { stubLib with voicevox_initialize_openjtalk := fun _ => 2 }

/-- An environment where every path exists and the default stub library
loads. -/
def stubEnv : Env where
  expanduser := fun s => s
  resolve := fun s => some s
  parent := fun _ => ("/")
  utf8Encode := asciiEncode
  utf8Decode := asciiDecode
  loadLib := fun _ => stubLib
  faulthandlerEnabled := true

/-- `stubEnv` loading the failing-initialize stub. -/
def stubEnvInitFail : Env :=
  { stubEnv with loadLib := fun _ => stubLibInitFail }

/-- `stubEnv` loading the failing-openjtalk stub. -/
def stubEnvOjtFail : Env :=
  { stubEnv with loadLib := fun _ => stubLibOjtFail }

/-- An environment where no path exists. -/
def stubEnvNoFile : Env :=
  { stubEnv with resolve := fun _ => none }

/-- Environment for the C7 counterexample: `~w` expands to `/h/w`,
resolution succeeds on everything. -/
def c7env : Env :=
  { stubEnv with expanduser := fun s => if s = "~w" then "/h/w" else s }

/-! ### Support lemmas -/

set_option maxRecDepth 8192 in
/-- The per-byte hex round trip of the tts copy loop is the identity on
byte values. -/
theorem hexRoundTripByte_lt (b : Nat) (hb : b < 256) :
    hexRoundTripByte b = [b] := by
  have h : ∀ x : Fin 256, hexRoundTripByte x.val = [x.val] := by decide
  exact h ⟨b, hb⟩

/-- Unfolding one iteration of the copy loop. -/
theorem ttsCopy_succ (p : WavPtr) (n : Nat) :
    ttsCopy p (n + 1) = ttsCopy p n ++ hexRoundTripByte (readByte p n) := by
  simp [ttsCopy, List.range_succ]

/-- The copy loop reproduces the prefix of the buffer it has read. -/
theorem ttsCopy_take (buf : List Nat) (hb : ∀ b ∈ buf, b < 256) :
    ∀ n, n ≤ buf.length → ttsCopy (WavPtr.native buf) n = buf.take n := by
  intro n
  induction n with
  | zero => intro _; simp [ttsCopy]
  | succ m ih =>
    intro hm
    have hmlt : m < buf.length := Nat.lt_of_succ_le hm
    have hmem : buf[m] ∈ buf := List.getElem_mem hmlt
    have h2 : buf[m] < 256 := hb _ hmem
    have hget : readByte (WavPtr.native buf) m = buf[m] := by
      simp [readByte, WavPtr.deref, List.getD,
            List.getElem?_eq_getElem hmlt, Nat.mod_eq_of_lt h2]
    rw [ttsCopy_succ, ih (Nat.le_of_lt hmlt), hget,
        hexRoundTripByte_lt _ h2, List.take_succ]
    simp [List.getElem?_eq_getElem hmlt]

/-- The copy loop over the whole buffer reproduces the buffer. -/
theorem ttsCopy_eq (buf : List Nat) (hb : ∀ b ∈ buf, b < 256) :
    ttsCopy (WavPtr.native buf) buf.length = buf := by
  rw [ttsCopy_take buf hb buf.length (Nat.le_refl _), List.take_length]

/-! ### Claims -/

/-- Claim C5: the source declares `decode_forward` with argtypes
`[c_int64, c_int64, float*, float*, int64*, float*]` as the contract
table says, but never assigns its restype, so ctypes leaves the default
`c_int` rather than the boolean success flag the docstring, the `-> bool`
annotation, and the sibling declarations promise. -/
theorem decode_forward_restype_not_bool :
    (VVCore.declTable ("decode_forward")).argtypes
        = some [CType.c_int64, CType.c_int64, CType.ptr CType.c_float,
                CType.ptr CType.c_float, CType.ptr CType.c_int64,
                CType.ptr CType.c_float]
      ∧ (VVCore.declTable ("decode_forward")).restype = CType.c_int
      ∧ (VVCore.declTable ("decode_forward")).restype ≠ CType.c_bool := by
  refine ⟨rfl, rfl, ?_⟩
  decide

/-- The copy-loop read events never contain a free event. -/
theorem filter_isWavFree_readBuf (n : Nat) :
    ((List.range n).map Event.readBuf).filter Event.isWavFree = [] := by
  induction n with
  | zero => rfl
  | succ m ih =>
    simp only [List.range_succ, List.map_append, List.filter_append, ih]
    rfl

/-- Claim C1: on a successful `voicevox_tts` call whose native buffer
holds exactly `output_binary_size` bytes, `tts` returns a host-owned
copy equal to the native buffer byte for byte, every buffer read
happens before the single `voicevox_wav_free`, and the per-byte hex
round trip `bytes.fromhex(hex(b)[2:].zfill(2))` is the identity on
byte values below 256. -/
theorem tts_success_copies_buffer (env : Env) (self : TTSLibState)
    (text : String) (speakerId : Int) (buf : List Nat)
    (hb : ∀ b ∈ buf, b < 256)
    (hcall : self.core.voicevox_tts (env.utf8Encode text) speakerId
      = ⟨0, (buf.length : Int), some buf⟩) :
    VVTTSLib.tts env self text speakerId
      = (Except.ok buf,
         Event.callTts (env.utf8Encode text) speakerId
           :: ((List.range buf.length).map Event.readBuf
                ++ [Event.wavFree (WavPtr.native buf)]))
    ∧ ∀ b < 256, hexRoundTripByte b = [b] := by
  refine ⟨?_, fun b hb256 => hexRoundTripByte_lt b hb256⟩
  simp only [VVTTSLib.tts, hcall]
  simp [wavPtrOf, ttsCopy_eq buf hb]

/-- Witness for C1: the 4-byte echo stub scenario from the spec. -/
theorem tts_success_copies_buffer_witness :
    VVTTSLib.tts stubEnv ⟨stubLib⟩ ("hi") 0
      = (Except.ok [1, 2, 3, 4],
         Event.callTts (stubEnv.utf8Encode ("hi")) 0
           :: ((List.range (List.length [1, 2, 3, 4])).map Event.readBuf
                ++ [Event.wavFree (WavPtr.native [1, 2, 3, 4])]))
    ∧ ∀ b < 256, hexRoundTripByte b = [b] :=
  tts_success_copies_buffer stubEnv ⟨stubLib⟩ ("hi") 0 [1, 2, 3, 4]
    (by decide) (by rfl)

/-- Claim C2: every `tts` call, successful or failed, emits exactly one
`voicevox_wav_free` on the output buffer pointer. -/
theorem tts_frees_exactly_once (env : Env) (self : TTSLibState)
    (text : String) (speakerId : Int) :
    (((VVTTSLib.tts env self text speakerId).2).filter Event.isWavFree).length
      = 1 := by
  simp only [VVTTSLib.tts]
  split
  · rfl
  · simp only [List.filter_cons, List.filter_append, filter_isWavFree_readBuf]
    rfl

/-- Claim C3: `tts` raises exactly when the result code is non-zero,
and on that path it frees the output buffer and then raises a message
combining the static description with the decoded
`voicevox_error_result_to_message` text for that code. -/
theorem tts_error_iff (env : Env) (self : TTSLibState) (text : String)
    (speakerId : Int) :
    (pyIsError (VVTTSLib.tts env self text speakerId).1 = true
        ↔ (self.core.voicevox_tts (env.utf8Encode text) speakerId).code ≠ 0)
    ∧ ((self.core.voicevox_tts (env.utf8Encode text) speakerId).code ≠ 0 →
        VVTTSLib.tts env self text speakerId
          = (Except.error (PyError.runtimeError
              ("音声合成に失敗しました。\n"
                ++ env.utf8Decode (self.core.voicevox_error_result_to_message
                    (self.core.voicevox_tts (env.utf8Encode text) speakerId).code))),
             [Event.callTts (env.utf8Encode text) speakerId,
              Event.wavFree (wavPtrOf
                (self.core.voicevox_tts (env.utf8Encode text) speakerId).wav),
              Event.callErrMsg
                (self.core.voicevox_tts (env.utf8Encode text) speakerId).code])) := by
  by_cases hc :
      (self.core.voicevox_tts (env.utf8Encode text) speakerId).code = 0
  · constructor
    · simp [VVTTSLib.tts, hc, pyIsError]
    · intro h
      exact absurd hc h
  · constructor
    · simp [VVTTSLib.tts, hc, pyIsError]
    · intro _
      simp [VVTTSLib.tts, hc]

/-- Witness for C3: a stub whose `voicevox_tts` fails with code 1 makes
`tts` raise. -/
theorem tts_error_iff_witness :
    pyIsError (VVTTSLib.tts stubEnv ⟨stubLibTtsFail⟩ ("hi") 0).1 = true :=
  (tts_error_iff stubEnv ⟨stubLibTtsFail⟩ ("hi") 0).1.mpr (by decide)

/-- Claim C10: on a non-zero result code, `tts` frees whatever pointer
the output parameter holds, the pre-allocated single-byte placeholder
included when the native side never produced a buffer. -/
theorem tts_failure_frees_held_pointer (env : Env) (self : TTSLibState)
    (text : String) (speakerId : Int)
    (hcode : (self.core.voicevox_tts (env.utf8Encode text) speakerId).code ≠ 0) :
    (VVTTSLib.tts env self text speakerId).2
      = [Event.callTts (env.utf8Encode text) speakerId,
         Event.wavFree (wavPtrOf
           (self.core.voicevox_tts (env.utf8Encode text) speakerId).wav),
         Event.callErrMsg
           (self.core.voicevox_tts (env.utf8Encode text) speakerId).code]
    ∧ ((self.core.voicevox_tts (env.utf8Encode text) speakerId).wav = none →
        Event.wavFree WavPtr.placeholder
          ∈ (VVTTSLib.tts env self text speakerId).2) := by
  have htrace : (VVTTSLib.tts env self text speakerId).2
      = [Event.callTts (env.utf8Encode text) speakerId,
         Event.wavFree (wavPtrOf
           (self.core.voicevox_tts (env.utf8Encode text) speakerId).wav),
         Event.callErrMsg
           (self.core.voicevox_tts (env.utf8Encode text) speakerId).code] := by
    simp [VVTTSLib.tts, hcode]
  refine ⟨htrace, fun hw => ?_⟩
  rw [htrace, hw]
  simp [wavPtrOf]

/-- Witness for C10: the failing stub leaves the output pointer
untouched and `tts` frees the placeholder. -/
theorem tts_failure_frees_held_pointer_witness :
    Event.wavFree WavPtr.placeholder
      ∈ (VVTTSLib.tts stubEnv ⟨stubLibTtsFail⟩ ("hi") 0).2 :=
  (tts_failure_frees_held_pointer stubEnv ⟨stubLibTtsFail⟩ ("hi") 0
    (by decide)).2 (by rfl)

/-- Claim C9: `metas` and `supported_devices` each invoke their native
function on every call (one native call per facade call, and the facade
holds no cache) and return exactly the JSON parse of the UTF-8 decoding
of the returned byte string. -/
theorem metas_supported_devices_passthrough (JVal : Type)
    (jsonLoads : String → JVal) (env : Env) (self : TTSLibState) :
    VVTTSLib.metas env jsonLoads self
      = (jsonLoads (env.utf8Decode self.core.metas), [Event.callMetas])
    ∧ VVTTSLib.supported_devices env jsonLoads self
      = (jsonLoads (env.utf8Decode self.core.supported_devices),
         [Event.callSupportedDevices]) :=
  ⟨rfl, rfl⟩

/-! ### Construction-path helpers -/

/-- Events emitted by the optional preload step. -/
def ortPrefix : Option String → List Event
  | some op => [Event.loadLib op]
  | none => []

/-- When the preload path (if any) resolves, construction proceeds to
the library-path stage with the preload's trace. -/
theorem init_eq_fromTtslib (env : Env) (ttslibPath : String)
    (useGpu : Bool) (threads : Int) (dictDir : Option String)
    (initDir : Option String) (ortPath : Option String) (fh : Bool)
    (hort : ∀ op, ortPath = some op →
      (env.resolve (env.expanduser op)).isSome) :
    VVTTSLib.init env ttslibPath useGpu threads dictDir initDir ortPath fh
      = initFromTtslib env ttslibPath useGpu threads dictDir initDir fh
          (ortPrefix ortPath) := by
  cases ortPath with
  | none => rfl
  | some op =>
    obtain ⟨v, hv⟩ := Option.isSome_iff_exists.mp (hort op rfl)
    simp [VVTTSLib.init, hv, ortPrefix]

/-- When the library path and working directory both resolve, the
library-path stage loads the core, calls initialize and branches on its
result. -/
theorem fromTtslib_resolved (env : Env) (ttslibPath : String)
    (useGpu : Bool) (threads : Int) (dictDir : Option String)
    (initDir : Option String) (fh : Bool) (evs : List Event)
    (htts : (env.resolve (env.expanduser ttslibPath)).isSome)
    (hinit : (env.resolve
      (env.expanduser (initDir.getD (env.parent ttslibPath)))).isSome) :
    initFromTtslib env ttslibPath useGpu threads dictDir initDir fh evs
      = (if (env.loadLib ttslibPath).initialize'
            (env.utf8Encode (initDir.getD (env.parent ttslibPath)))
            useGpu threads
         then initDictStep env (env.loadLib ttslibPath) dictDir
            ((evs ++ (if fh && !env.faulthandlerEnabled
                      then [Event.enableFaulthandler] else []))
              ++ [Event.loadLib ttslibPath,
                  Event.callInit
                    (env.utf8Encode (initDir.getD (env.parent ttslibPath)))
                    useGpu threads])
         else
           (Except.error (PyError.runtimeError
              ("コアの初期化に失敗しました。\n"
                ++ env.utf8Decode (env.loadLib ttslibPath).last_error_message)),
            ((evs ++ (if fh && !env.faulthandlerEnabled
                      then [Event.enableFaulthandler] else []))
              ++ [Event.loadLib ttslibPath,
                  Event.callInit
                    (env.utf8Encode (initDir.getD (env.parent ttslibPath)))
                    useGpu threads])
              ++ [Event.callLastError])) := by
  obtain ⟨v1, hv1⟩ := Option.isSome_iff_exists.mp htts
  obtain ⟨v2, hv2⟩ := Option.isSome_iff_exists.mp hinit
  simp only [initFromTtslib, hv1, hv2]

/-- Claim C4: when the native initialize call made during construction
returns false, construction raises and no facade object is produced,
with a message combining the static description and the decoded
`last_error_message` text. -/
theorem init_fail_raises (env : Env) (ttslibPath : String) (useGpu : Bool)
    (threads : Int) (dictDir : Option String) (initDir : Option String)
    (ortPath : Option String) (fh : Bool)
    (hort : ∀ op, ortPath = some op →
      (env.resolve (env.expanduser op)).isSome)
    (htts : (env.resolve (env.expanduser ttslibPath)).isSome)
    (hinit : (env.resolve
      (env.expanduser (initDir.getD (env.parent ttslibPath)))).isSome)
    (hfail : (env.loadLib ttslibPath).initialize'
        (env.utf8Encode (initDir.getD (env.parent ttslibPath)))
        useGpu threads = false) :
    (VVTTSLib.init env ttslibPath useGpu threads dictDir initDir ortPath
        fh).1
      = Except.error (PyError.runtimeError
          ("コアの初期化に失敗しました。\n"
            ++ env.utf8Decode (env.loadLib ttslibPath).last_error_message)) := by
  rw [init_eq_fromTtslib env ttslibPath useGpu threads dictDir initDir
        ortPath fh hort,
      fromTtslib_resolved env ttslibPath useGpu threads dictDir initDir fh
        (ortPrefix ortPath) htts hinit]
  simp [hfail]

/-- Witness for C4: the spec's stub scenario — `initialize` returns
false, `last_error_message` is "boom", and the raised message contains
"boom". -/
theorem init_fail_raises_witness :
    (VVTTSLib.init stubEnvInitFail ("/lib") false 0 none none none
        false).1
      = Except.error (PyError.runtimeError
          ("コアの初期化に失敗しました。\nboom")) := by
  rw [init_fail_raises stubEnvInitFail ("/lib") false 0 none none none
        false (fun op h => nomatch h) (by rfl) (by rfl) (by rfl)]
  rfl

/-- Claim C6: when the library path does not refer to an existing file,
construction raises from a strict path-existence check and no call into
a native library has been made. -/
theorem init_invalid_libpath (env : Env) (ttslibPath : String)
    (useGpu : Bool) (threads : Int) (dictDir : Option String)
    (initDir : Option String) (ortPath : Option String) (fh : Bool)
    (htts : env.resolve (env.expanduser ttslibPath) = none) :
    pyIsFileNotFound
        (VVTTSLib.init env ttslibPath useGpu threads dictDir initDir
          ortPath fh).1 = true
    ∧ ((VVTTSLib.init env ttslibPath useGpu threads dictDir initDir
          ortPath fh).2).filter Event.isNativeCall = [] := by
  cases ortPath with
  | none =>
    constructor
    · simp [VVTTSLib.init, initFromTtslib, htts, pyIsFileNotFound]
    · simp [VVTTSLib.init, initFromTtslib, htts]
  | some op =>
    cases hop : env.resolve (env.expanduser op) with
    | none =>
      constructor
      · simp [VVTTSLib.init, hop, pyIsFileNotFound]
      · simp [VVTTSLib.init, hop]
    | some v =>
      constructor
      · simp [VVTTSLib.init, hop, initFromTtslib, htts, pyIsFileNotFound]
      · simp [VVTTSLib.init, hop, initFromTtslib, htts,
              Event.isNativeCall]

/-- Witness for C6: with a filesystem where nothing exists,
construction raises the strict check and makes no native call. -/
theorem init_invalid_libpath_witness :
    pyIsFileNotFound
        (VVTTSLib.init stubEnvNoFile ("/nope") false 0 none none none
          false).1 = true
    ∧ ((VVTTSLib.init stubEnvNoFile ("/nope") false 0 none none none
          false).2).filter Event.isNativeCall = [] :=
  init_invalid_libpath stubEnvNoFile ("/nope") false 0 none none none
    false (by rfl)

/-- The Open JTalk step only appends to the accumulated trace. -/
theorem initDictStep_trace_append (env : Env) (core : NativeLib)
    (dictDir : Option String) (evs : List Event) :
    ∃ t, (initDictStep env core dictDir evs).2 = evs ++ t := by
  cases dictDir with
  | none => exact ⟨[], by simp [initDictStep]⟩
  | some dd =>
    cases hdd : env.resolve (env.expanduser dd) with
    | none => exact ⟨[], by simp [initDictStep, hdd]⟩
    | some v =>
      by_cases hc : core.voicevox_initialize_openjtalk (env.utf8Encode dd) ≠ 0
      · exact ⟨[Event.callOpenjtalk (env.utf8Encode dd),
                Event.callErrMsg
                  (core.voicevox_initialize_openjtalk (env.utf8Encode dd))],
              by simp [initDictStep, hdd, hc]⟩
      · exact ⟨[Event.callOpenjtalk (env.utf8Encode dd)],
              by simp [initDictStep, hdd, hc]⟩

/-- Claim C7 counterexample: the spec says initialize receives the
*resolved* working directory, but the source discards the result of
`expanduser().resolve(strict=True)` and passes the path as given.  In
this environment `~w` resolves to `/h/w`, yet the trace shows
initialize receiving the encoding of `~w`, which differs from the
encoding of `/h/w`. -/
theorem init_initdir_not_resolved_counterexample :
    (VVTTSLib.init c7env ("/lib") false 0 none (some ("~w")) none
        false).2
      = [Event.loadLib ("/lib"), Event.callInit (asciiEncode ("~w")) false 0]
    ∧ c7env.resolve (c7env.expanduser ("~w")) = some ("/h/w")
    ∧ asciiEncode ("~w") ≠ asciiEncode ("/h/w") := by
  refine ⟨rfl, rfl, ?_⟩
  decide

/-- Claim C7 as amended: during construction the native initialize call
receives the UTF-8 encoding of the working-directory path as supplied
(defaulting to the containing directory of the library path when
`init_dir` is absent) — the path whose existence the strict resolution
validated, not the resolution's result — together with the GPU flag and
thread count as given. -/
theorem init_calls_initialize_with_given_dir (env : Env)
    (ttslibPath : String) (useGpu : Bool) (threads : Int)
    (dictDir : Option String) (initDir : Option String)
    (ortPath : Option String) (fh : Bool)
    (hort : ∀ op, ortPath = some op →
      (env.resolve (env.expanduser op)).isSome)
    (htts : (env.resolve (env.expanduser ttslibPath)).isSome)
    (hinit : (env.resolve
      (env.expanduser (initDir.getD (env.parent ttslibPath)))).isSome) :
    Event.callInit (env.utf8Encode (initDir.getD (env.parent ttslibPath)))
        useGpu threads
      ∈ (VVTTSLib.init env ttslibPath useGpu threads dictDir initDir
          ortPath fh).2 := by
  rw [init_eq_fromTtslib env ttslibPath useGpu threads dictDir initDir
        ortPath fh hort,
      fromTtslib_resolved env ttslibPath useGpu threads dictDir initDir fh
        (ortPrefix ortPath) htts hinit]
  split
  · obtain ⟨t, ht⟩ := initDictStep_trace_append env (env.loadLib ttslibPath)
      dictDir ((ortPrefix ortPath
          ++ (if fh && !env.faulthandlerEnabled
              then [Event.enableFaulthandler] else []))
        ++ [Event.loadLib ttslibPath,
            Event.callInit
              (env.utf8Encode (initDir.getD (env.parent ttslibPath)))
              useGpu threads])
    rw [ht]
    simp
  · simp

/-- Witness for the amended C7: with no `init_dir`, initialize receives
the encoding of the library path's parent directory. -/
theorem init_calls_initialize_with_given_dir_witness :
    Event.callInit
        (stubEnv.utf8Encode
          ((none : Option String).getD (stubEnv.parent ("/lib")))) false 0
      ∈ (VVTTSLib.init stubEnv ("/lib") false 0 none none none false).2 :=
  init_calls_initialize_with_given_dir stubEnv ("/lib") false 0 none none
    none false (fun op h => nomatch h) (by rfl) (by rfl)

/-- Claim C8: with a dictionary directory, construction calls
`voicevox_initialize_openjtalk` on it and a non-zero code aborts
construction with the static description plus the decoded error-code
message; with no dictionary directory, `voicevox_initialize_openjtalk`
is never called. -/
theorem init_openjtalk (env : Env) (ttslibPath : String) (useGpu : Bool)
    (threads : Int) (dictDir : Option String) (initDir : Option String)
    (ortPath : Option String) (fh : Bool)
    (hort : ∀ op, ortPath = some op →
      (env.resolve (env.expanduser op)).isSome)
    (htts : (env.resolve (env.expanduser ttslibPath)).isSome)
    (hinit : (env.resolve
      (env.expanduser (initDir.getD (env.parent ttslibPath)))).isSome)
    (hinitok : (env.loadLib ttslibPath).initialize'
        (env.utf8Encode (initDir.getD (env.parent ttslibPath)))
        useGpu threads = true) :
    (∀ dd, dictDir = some dd →
      (env.resolve (env.expanduser dd)).isSome →
        Event.callOpenjtalk (env.utf8Encode dd)
          ∈ (VVTTSLib.init env ttslibPath useGpu threads dictDir initDir
              ortPath fh).2
        ∧ ((env.loadLib ttslibPath).voicevox_initialize_openjtalk
              (env.utf8Encode dd) ≠ 0 →
            (VVTTSLib.init env ttslibPath useGpu threads dictDir initDir
                ortPath fh).1
              = Except.error (PyError.runtimeError
                  ("Open JTalkの初期化に失敗しました。\n"
                    ++ env.utf8Decode
                        ((env.loadLib ttslibPath).voicevox_error_result_to_message
                          ((env.loadLib ttslibPath).voicevox_initialize_openjtalk
                            (env.utf8Encode dd)))))))
    ∧ (dictDir = none →
        ∀ bs, Event.callOpenjtalk bs
          ∉ (VVTTSLib.init env ttslibPath useGpu threads dictDir initDir
              ortPath fh).2) := by
  have hmain : VVTTSLib.init env ttslibPath useGpu threads dictDir initDir
      ortPath fh
      = initDictStep env (env.loadLib ttslibPath) dictDir
          ((ortPrefix ortPath
              ++ (if fh && !env.faulthandlerEnabled
                  then [Event.enableFaulthandler] else []))
            ++ [Event.loadLib ttslibPath,
                Event.callInit
                  (env.utf8Encode (initDir.getD (env.parent ttslibPath)))
                  useGpu threads]) := by
    rw [init_eq_fromTtslib env ttslibPath useGpu threads dictDir initDir
          ortPath fh hort,
        fromTtslib_resolved env ttslibPath useGpu threads dictDir initDir
          fh (ortPrefix ortPath) htts hinit]
    simp [hinitok]
  constructor
  · intro dd hdd hres
    subst hdd
    obtain ⟨v3, hv3⟩ := Option.isSome_iff_exists.mp hres
    constructor
    · rw [hmain]
      simp only [initDictStep, hv3]
      split <;> simp
    · intro hcode
      rw [hmain]
      simp [initDictStep, hv3, hcode]
  · intro hnone bs
    subst hnone
    rw [hmain]
    simp only [initDictStep]
    by_cases hfh : (fh && !env.faulthandlerEnabled) = true
    · cases ortPath <;> simp [ortPrefix, hfh]
    · cases ortPath <;> simp [ortPrefix, hfh]

/-- Witness for C8: the failing Open JTalk stub aborts construction
with the translated code-2 message. -/
theorem init_openjtalk_witness :
    (VVTTSLib.init stubEnvOjtFail ("/lib") false 0 (some ("/dict")) none
        none false).1
      = Except.error (PyError.runtimeError
          ("Open JTalkの初期化に失敗しました。\nerr")) := by
  have h := init_openjtalk stubEnvOjtFail ("/lib") false 0
    (some ("/dict")) none none false (fun op h => nomatch h) (by rfl)
    (by rfl) (by rfl)
  rw [(h.1 ("/dict") rfl (by rfl)).2 (by decide)]
  rfl

end PyVVCore
